import Mathlib

/-!
Shallow embedding of the podcast-generation backend (`src/app.py`) and proofs
about its pipeline stages.

External collaborators (Wikipedia, the page scraper, the MiniMax chat and music
services, the ElevenLabs speech service, the file system) are modelled as
oracles bundled in an `Env` record; each oracle returns either a value or an
error, the latter standing for any raised transport/parse exception.  Audio
segments built with `pydub` are modelled by the expression tree `Audio`, whose
constructors are exactly the `pydub` operations the source uses; note that in
`pydub`, `+` on two segments is concatenation (`append`), while `overlay` is
the mixing operation.  Durations are in milliseconds.
-/

namespace Podcast

/-! ### Python string primitives -/

/-- Python whitespace class (`\s` and `str.strip`’s default set, ASCII part). -/
def pyWsChar (c : Char) : Bool :=
  c = ' ' || c = '\t' || c = '\n' || c = '\r' || c = '\x0b' || c = '\x0c'

/-- `str.strip()` on a character list. -/
def pyStrip (l : List Char) : List Char :=
  ((l.dropWhile pyWsChar).reverse.dropWhile pyWsChar).reverse

/-- `str.strip()` on a `String`. -/
def pyStripStr (s : String) : String :=
  ⟨pyStrip s.data⟩

/-- Auxiliary loop of `str.splitlines()`: splits at `\r\n`, `\r`, `\n`;
a terminal line break produces no trailing empty line. -/
def pySplitlinesGo : List Char → List Char → List (List Char)
  | [], acc => [acc.reverse]
  | '\r' :: '\n' :: rest, acc =>
    match rest with
    | [] => [acc.reverse]
    | _ => acc.reverse :: pySplitlinesGo rest []
  | '\n' :: rest, acc =>
    match rest with
    | [] => [acc.reverse]
    | _ => acc.reverse :: pySplitlinesGo rest []
  | '\r' :: rest, acc =>
    match rest with
    | [] => [acc.reverse]
    | _ => acc.reverse :: pySplitlinesGo rest []
  | c :: rest, acc => pySplitlinesGo rest (c :: acc)

/-- `str.splitlines()`. -/
def pySplitlines (l : List Char) : List (List Char) :=
  match l with
  | [] => []
  | _ => pySplitlinesGo l []

/-- Lexicographic (code-point) `<=` on character lists: Python string order. -/
def strLeChars : List Char → List Char → Bool
  | [], _ => true
  | _ :: _, [] => false
  | a :: as, b :: bs =>
    if a.toNat < b.toNat then true
    else if b.toNat < a.toNat then false
    else strLeChars as bs

/-- Python `<=` on strings (code-point lexicographic). -/
def strLe (a b : String) : Bool := strLeChars a.data b.data

/-- Insert into a sorted list, keeping earlier elements first among ties
(the stability convention of Python’s `sorted`). -/
def insertSorted (le : α → α → Bool) (x : α) : List α → List α
  | [] => [x]
  | y :: ys => if le x y then x :: y :: ys else y :: insertSorted le x ys

/-- Stable insertion sort: the model of Python’s `sorted`. -/
def sortedBy (le : α → α → Bool) : List α → List α
  | [] => []
  | x :: xs => insertSorted le x (sortedBy le xs)

/-! ### JSON values and `json.loads`

`Json.num` keeps the numeric lexeme as written; no claim inspects numeric
values, so no float semantics are needed. -/

inductive Json where
  | null : Json
  | bool (b : Bool) : Json
  | num (lit : String) : Json
  | str (s : String) : Json
  | arr (elems : List Json) : Json
  | obj (members : List (String × Json)) : Json

/-- JSON whitespace (the set `json.loads` skips). -/
def jsonWs (c : Char) : Bool :=
  c = ' ' || c = '\t' || c = '\n' || c = '\r'

/-- Hex digit value, for `\uXXXX` escapes. -/
def hexVal (c : Char) : Option Nat :=
  if '0' ≤ c ∧ c ≤ '9' then some (c.toNat - 48)
  else if 'a' ≤ c ∧ c ≤ 'f' then some (c.toNat - 87)
  else if 'A' ≤ c ∧ c ≤ 'F' then some (c.toNat - 55)
  else none

/-- Body of a JSON string literal after the opening quote; returns the decoded
characters and the input following the closing quote. -/
def parseStrBody : List Char → Option (List Char × List Char)
  | [] => none
  | '"' :: rest => some ([], rest)
  | '\\' :: e :: rest =>
    match e with
    | '"' => (parseStrBody rest).map (fun p => ('"' :: p.1, p.2))
    | '\\' => (parseStrBody rest).map (fun p => ('\\' :: p.1, p.2))
    | '/' => (parseStrBody rest).map (fun p => ('/' :: p.1, p.2))
    | 'b' => (parseStrBody rest).map (fun p => ('\x08' :: p.1, p.2))
    | 'f' => (parseStrBody rest).map (fun p => ('\x0c' :: p.1, p.2))
    | 'n' => (parseStrBody rest).map (fun p => ('\n' :: p.1, p.2))
    | 'r' => (parseStrBody rest).map (fun p => ('\r' :: p.1, p.2))
    | 't' => (parseStrBody rest).map (fun p => ('\t' :: p.1, p.2))
    | 'u' =>
      match rest with
      | h1 :: h2 :: h3 :: h4 :: rest2 =>
        match hexVal h1, hexVal h2, hexVal h3, hexVal h4 with
        | some a, some b, some c, some d =>
          (parseStrBody rest2).map
            (fun p => (Char.ofNat (((a * 16 + b) * 16 + c) * 16 + d) :: p.1, p.2))
        | _, _, _, _ => none
      | _ => none
    | _ => none
  | c :: rest => (parseStrBody rest).map (fun p => (c :: p.1, p.2))

/-- One or more decimal digits. -/
def digits1 (s : List Char) : Option (List Char × List Char) :=
  let ds := s.takeWhile Char.isDigit
  if ds = [] then none else some (ds, s.drop ds.length)

/-- JSON integer part: `0` alone, or a nonzero digit followed by digits. -/
def parseIntPart : List Char → Option (List Char × List Char)
  | '0' :: rest => some (['0'], rest)
  | c :: rest =>
    if c.isDigit then
      let ds := rest.takeWhile Char.isDigit
      some (c :: ds, rest.drop ds.length)
    else none
  | [] => none

/-- JSON number lexeme: sign, integer part, optional fraction and exponent. -/
def parseNum (s : List Char) : Option (Json × List Char) :=
  let (sign, s1) := match s with
    | '-' :: rest => (['-'], rest)
    | _ => (([] : List Char), s)
  match parseIntPart s1 with
  | none => none
  | some (ip, s2) =>
    let (fp, s3) := match s2 with
      | '.' :: rest =>
        match digits1 rest with
        | some (ds, r) => ('.' :: ds, r)
        | none => (([] : List Char), s2)
      | _ => (([] : List Char), s2)
    -- a dot not followed by digits makes the whole parse fail in Python;
    -- such inputs then fail at the trailing-garbage check, which is equivalent
    let (ep, s4) := match s3 with
      | 'e' :: '-' :: rest =>
        match digits1 rest with
        | some (ds, r) => ('e' :: '-' :: ds, r)
        | none => (([] : List Char), s3)
      | 'e' :: '+' :: rest =>
        match digits1 rest with
        | some (ds, r) => ('e' :: '+' :: ds, r)
        | none => (([] : List Char), s3)
      | 'e' :: rest =>
        match digits1 rest with
        | some (ds, r) => ('e' :: ds, r)
        | none => (([] : List Char), s3)
      | 'E' :: rest =>
        match digits1 rest with
        | some (ds, r) => ('E' :: ds, r)
        | none => (([] : List Char), s3)
      | _ => (([] : List Char), s3)
    some (.num ⟨sign ++ ip ++ fp ++ ep⟩, s4)

/-- Insert a key/value pair the way a Python `dict` does: an existing key keeps
its position and takes the new value, a new key is appended. -/
def insertKV : List (String × Json) → String → Json → List (String × Json)
  | [], k, v => [(k, v)]
  | (k', v') :: rest, k, v =>
    if k' = k then (k', v) :: rest else (k', v') :: insertKV rest k v

mutual

/-- Fuel-indexed JSON value parser (the grammar of `json.loads`). -/
def parseVal : Nat → List Char → Option (Json × List Char)
  | 0, _ => none
  | fuel + 1, s =>
    let s := s.dropWhile jsonWs
    match s with
    | [] => none
    | 'n' :: 'u' :: 'l' :: 'l' :: rest => some (.null, rest)
    | 't' :: 'r' :: 'u' :: 'e' :: rest => some (.bool true, rest)
    | 'f' :: 'a' :: 'l' :: 's' :: 'e' :: rest => some (.bool false, rest)
    | 'N' :: 'a' :: 'N' :: rest => some (.num "NaN", rest)
    | 'I' :: 'n' :: 'f' :: 'i' :: 'n' :: 'i' :: 't' :: 'y' :: rest =>
      some (.num "Infinity", rest)
    | '-' :: 'I' :: 'n' :: 'f' :: 'i' :: 'n' :: 'i' :: 't' :: 'y' :: rest =>
      some (.num "-Infinity", rest)
    | '"' :: rest => (parseStrBody rest).map (fun p => (.str ⟨p.1⟩, p.2))
    | '[' :: rest =>
      let rest := rest.dropWhile jsonWs
      match rest with
      | ']' :: r2 => some (.arr [], r2)
      | _ => parseArrElems fuel rest []
    | '\x7b' :: rest =>
      let rest := rest.dropWhile jsonWs
      match rest with
      | '\x7d' :: r2 => some (.obj [], r2)
      | _ => parseObjMembers fuel rest []
    | _ => parseNum s

/-- Array elements after `[`, accumulating in reverse. -/
def parseArrElems : Nat → List Char → List Json → Option (Json × List Char)
  | 0, _, _ => none
  | fuel + 1, s, acc =>
    match parseVal fuel s with
    | none => none
    | some (v, rest) =>
      let rest := rest.dropWhile jsonWs
      match rest with
      | ',' :: r2 => parseArrElems fuel r2 (v :: acc)
      | ']' :: r2 => some (.arr (v :: acc).reverse, r2)
      | _ => none

/-- Object members after `{`. -/
def parseObjMembers : Nat → List Char → List (String × Json) →
    Option (Json × List Char)
  | 0, _, _ => none
  | fuel + 1, s, acc =>
    let s := s.dropWhile jsonWs
    match s with
    | '"' :: rest =>
      match parseStrBody rest with
      | none => none
      | some (key, r1) =>
        let r1 := r1.dropWhile jsonWs
        match r1 with
        | ':' :: r2 =>
          match parseVal fuel r2 with
          | none => none
          | some (v, r3) =>
            let r3 := r3.dropWhile jsonWs
            match r3 with
            | ',' :: r4 => parseObjMembers fuel r4 (insertKV acc key.asString v)
            | '\x7d' :: r4 => some (.obj (insertKV acc key.asString v), r4)
            | _ => none
        | _ => none
    | _ => none

end

/-- `json.loads` on a character list: parse one value, then require only
whitespace to follow. -/
def loads (s : List Char) : Option Json :=
  match parseVal (2 * s.length + 4) s with
  | some (v, rest) => if rest.dropWhile jsonWs = [] then some v else none
  | none => none

/-! ### Python-level errors and subscripting -/

/-- Uncaught Python exceptions that can escape a stage. -/
inductive PyErr where
  | keyError (key : String) : PyErr
  | typeError : PyErr
deriving DecidableEq

/-- `line[key]`: `KeyError` on a dict without the key, `TypeError` on
non-dict values. -/
def getItem (j : Json) (key : String) : Except PyErr Json :=
  match j with
  | .obj kvs =>
    match kvs.lookup key with
    | some v => .ok v
    | none => .error (.keyError key)
  | _ => .error .typeError

/-- Is `line[key]` defined (no exception)? -/
def keyOk (l : Json) (k : String) : Bool :=
  match getItem l k with
  | .ok _ => true
  | .error _ => false

/-! ### Environment: configuration and external collaborators -/

/-- Response of one poll of the music-generation task:
`status_data.get("status")` and
`status_data.get("file", {}).get("download_url")`. -/
structure PollResp where
  status : Option String
  downloadUrl : Option String
deriving DecidableEq

/-- The MiniMax music service: task submission (`task_id`, if any), the poll
responses indexed by attempt, and the audio download.  `.error ()` stands for
a raised transport exception. -/
structure MusicSvc where
  submit : Except Unit (Option String)
  poll : Nat → Except Unit PollResp
  download : String → Except Unit Unit

/-- Wikipedia collaborator: the OpenSearch title list and, per title, the raw
plain-text extract. -/
structure WikiEnv where
  search : Except Unit (List String)
  extract : String → Except Unit String

/-- Page scraper collaborator: fetch plus BeautifulSoup noise-stripping,
yielding the flattened page text (`get_text` output). -/
structure ScrapeEnv where
  fetch : String → Except Unit String

/-- File-system facts consulted by the stitch stage: the configured chime file
(`static/bell.mp3`) and the decoded duration (ms) of each written mp3.
Files written by earlier stages of the same job decode successfully, so
`mp3Duration` is total. -/
structure FsEnv where
  bellFileExists : Bool
  bellFileSize : Nat
  bellDecode : Option Nat
  mp3Duration : String → Nat
  pathExists : String → Bool

/-- Full environment of one request: which API keys are configured, the
external services, and the job id drawn for the request. -/
structure Env where
  minimaxKey : Bool
  minimaxGroupId : Bool
  elevenKey : Bool
  wiki : WikiEnv
  scrape : ScrapeEnv
  chat : Except Unit String
  tts : Nat → String → Bool
  music : MusicSvc
  fs : FsEnv
  jobId : String

/-! ### Phase 2 — research (`research_topic`, `research_url`) -/

/-- `research_topic`: Wikipedia search and extract, with every failure path
degrading to a marked placeholder brief (the whole body is inside
`try/except`). -/
def research_topic (env : Env) (topic : String) : String :=
  match env.wiki.search with
  | .error _ =>
    "Topic: " ++ topic ++ ". (Wikipedia lookup failed — generate from general knowledge.)"
  | .ok [] =>
    "Topic: " ++ topic ++ ". (No Wikipedia article found — generate from general knowledge.)"
  | .ok (article_title :: _) =>
    match env.wiki.extract article_title with
    | .error _ =>
      "Topic: " ++ topic ++ ". (Wikipedia lookup failed — generate from general knowledge.)"
    | .ok raw =>
      let extract := pyStripStr raw
      if extract ≠ "" then
        "Wikipedia — " ++ article_title ++ "\n\n" ++ extract
      else
        "Topic: " ++ topic ++ ". (Wikipedia extract was empty — generate from general knowledge.)"

/-- `research_url`: scrape, flatten to stripped non-empty lines, keep the
first 120; every failure degrades to a marked placeholder brief. -/
def research_url (env : Env) (url : String) : String :=
  match env.scrape.fetch url with
  | .error _ =>
    "Article URL: " ++ url ++ ". (Scraping failed — generate from general knowledge.)"
  | .ok text =>
    let lines := ((pySplitlines text.data).map pyStrip).filter (· ≠ [])
    let excerpt : String := ⟨List.intercalate ['\n'] (lines.take 120)⟩
    if excerpt ≠ "" then
      "Source: " ++ url ++ "\n\n" ++ excerpt
    else
      "Article URL: " ++ url ++ ". (Page content was empty — generate from general knowledge.)"

/-! ### Phase 3 — script generation -/

/-- `^```(?:json)?\s*\n?` stripping, applied when the text starts with a
code fence. -/
def stripFenceStart (t : List Char) : List Char :=
  let t1 := t.drop 3
  let t2 := if t1.take 4 = "json".data then t1.drop 4 else t1
  t2.dropWhile pyWsChar

/-- `\n?```\s*$` stripping: remove a trailing fence (and one preceding
newline) when the text ends, modulo whitespace, with one. -/
def stripFenceEnd (t : List Char) : List Char :=
  let r := t.reverse
  let r1 := r.dropWhile pyWsChar
  if r1.take 3 = "```".data then
    let r2 := r1.drop 3
    let r3 := match r2 with
      | '\n' :: rest => rest
      | _ => r2
    r3.reverse
  else t

/-- `re.search(r"\[.*\]", text, re.DOTALL)` with a greedy `.*`: the substring
from the first `[` to the last `]`, when the latter comes after the former. -/
def bracketSearch (t : List Char) : Option (List Char) :=
  match t.findIdx? (· = '['), (t.reverse.findIdx? (· = ']')) with
  | some i, some k =>
    let j := t.length - 1 - k
    if i < j then some ((t.drop i).take (j - i + 1)) else none
  | _, _ => none

/-- `_parse_script_json`: strip a markdown fence if present, try a direct
parse (kept only when it yields a list), then fall back to the first
bracketed substring; raise (`.error`) when both fail.  A string whose first
non-space character is `[` can only parse to an array, so the fallback’s
missing `isinstance` check loses nothing. -/
def _parse_script_json (text : String) : Except Unit (List Json) :=
  let t0 := pyStrip text.data
  let t := if t0.take 3 = "```".data then stripFenceEnd (stripFenceStart t0) else t0
  match loads t with
  | some (.arr xs) => .ok xs
  | _ =>
    match bracketSearch t with
    | none => .error ()
    | some sub =>
      match loads sub with
      | some (.arr xs) => .ok xs
      | _ => .error ()

/-- `_placeholder_script`: the fixed ten-line fallback script. -/
def _placeholder_script (topic : String) : List Json :=
  [ .obj [("speaker", .str "Alex"),
      ("text", .str ("Hey Sam, today we\x27re diving into " ++ topic ++ ". I\x27ve been really curious about this!"))],
    .obj [("speaker", .str "Sam"),
      ("text", .str ("Yeah, " ++ topic ++ " is fascinating. Let me break it down for you."))],
    .obj [("speaker", .str "Alex"),
      ("text", .str "So what\x27s the most surprising thing people don\x27t know about this?")],
    .obj [("speaker", .str "Sam"),
      ("text", .str ("Well, the thing about " ++ topic ++ " that most people miss is how interconnected it is with everyday life. It\x27s not just some abstract concept."))],
    .obj [("speaker", .str "Alex"),
      ("text", .str "That\x27s a great point. Can you give me an example?")],
    .obj [("speaker", .str "Sam"),
      ("text", .str "Sure! Think of it this way — it\x27s like how you don\x27t notice gravity until you trip. The effects are everywhere once you start looking.")],
    .obj [("speaker", .str "Alex"),
      ("text", .str "Ha! I love that analogy. What should our listeners take away from this?")],
    .obj [("speaker", .str "Sam"),
      ("text", .str ("I\x27d say the key takeaway is that " ++ topic ++ " matters more than most people realize. Start paying attention and you\x27ll see it everywhere."))],
    .obj [("speaker", .str "Alex"),
      ("text", .str "Awesome. Thanks for breaking that down, Sam. Until next time, folks!")],
    .obj [("speaker", .str "Sam"),
      ("text", .str "See you next episode!")] ]

/-- `generate_script`: missing key, transport error or unparsable response
all degrade to the placeholder script.  The prompt built from
`research_brief` and `tone` only feeds the chat oracle, which is why those
arguments do not appear on the right-hand side. -/
def generate_script (env : Env) (topic _research_brief _tone : String) : List Json :=
  if !env.minimaxKey then _placeholder_script topic
  else
    match env.chat with
    | .error _ => _placeholder_script topic
    | .ok content =>
      match _parse_script_json content with
      | .error _ => _placeholder_script topic
      | .ok script => script

/-! ### Phase 4 — voice generation -/

/-- Default ElevenLabs voice ids (`ELEVENLABS_VOICE_ALEX` / `..._SAM`). -/
def voiceAlex : String := "21m00Tcm4TlvDq8ikWAM"

def voiceSam : String := "AZnzlk1XvdvUeBnXmlld"

/-- `voice_id = ELEVENLABS_VOICE_ALEX if speaker == "Alex" else
ELEVENLABS_VOICE_SAM`.  Any value other than the string `"Alex"` selects the
Sam voice. -/
def selectVoice (speaker : Json) : String :=
  match speaker with
  | .str s => if s = "Alex" then voiceAlex else voiceSam
  | _ => voiceSam

/-- `f"{i:03d}"`: the index zero-padded to at least three digits. -/
def pad3 (n : Nat) : String :=
  if n < 1000 then
    ⟨[Nat.digitChar (n / 100), Nat.digitChar (n / 10 % 10), Nat.digitChar (n % 10)]⟩
  else Nat.repr n

/-- `str.lower()` (ASCII case mapping; speaker labels are ASCII). -/
def strLower (s : String) : String := ⟨s.data.map Char.toLower⟩

/-- `f"{i:03d}_{speaker.lower()}.mp3"`. -/
def clipName (i : Nat) (speaker : String) : String :=
  pad3 i ++ "_" ++ strLower speaker ++ ".mp3"

/-- The job-scoped clips directory. -/
def clipsDir (job_id : String) : String := "output/" ++ job_id ++ "/clips/"

/-- Full path of the clip written for line `i`. -/
def clipPath (job_id : String) (i : Nat) (speaker : String) : String :=
  clipsDir job_id ++ clipName i speaker

/-- The loop of `generate_voice_clips`.  `line["speaker"]` and `line["text"]`
are evaluated outside the `try` block, so their exceptions abort the whole
stage; the TTS request, the file write and the `speaker.lower()` call happen
inside it, so their failures skip the line only. -/
def voiceClipsGo (env : Env) (job_id : String) : Nat → List Json → Except PyErr (List String)
  | _, [] => .ok []
  | i, line :: rest =>
    match getItem line "speaker" with
    | .error e => .error e
    | .ok speaker =>
      match getItem line "text" with
      | .error e => .error e
      | .ok _text =>
        let cur : List String :=
          match speaker with
          | .str s => if env.tts i (selectVoice speaker) then [clipPath job_id i s] else []
          | _ => []      -- non-string speaker: `speaker.lower()` raises, line skipped
        match voiceClipsGo env job_id (i + 1) rest with
        | .error e => .error e
        | .ok others => .ok (cur ++ others)

/-- `generate_voice_clips`: empty immediately without credentials, else the
per-line loop. -/
def generate_voice_clips (env : Env) (script : List Json) (job_id : String) :
    Except PyErr (List String) :=
  if !env.elevenKey then .ok []
  else voiceClipsGo env job_id 0 script

/-- All lines index without exception (object with `speaker` and `text`). -/
def wfScript (script : List Json) : Bool :=
  script.all (fun l => keyOk l "speaker" && keyOk l "text")

/-- Closed form of one loop step: the clip produced for line `line` at index
`i`, if any. -/
def clipFor (env : Env) (job_id : String) (p : Nat × Json) : Option String :=
  match getItem p.2 "speaker" with
  | .ok (.str s) =>
    if env.tts p.1 (selectVoice (.str s)) then some (clipPath job_id p.1 s) else none
  | _ => none

/-! ### Phase 5 — jingle -/

/-- Outcome of `generate_jingle` with the explicit state of its waiting:
the returned path, the number of polls issued, and the total time slept
(2 time units before every poll). -/
structure JingleResult where
  path : Option String
  polls : Nat
  elapsed : Nat
deriving DecidableEq

/-- The polling loop (`for attempt in range(30)`), modelled with explicit
fuel, poll counter and elapsed sleep time.  A transport error anywhere is
caught by the surrounding `except` and yields `none`. -/
def pollLoop (env : Env) (job_id : String) : Nat → Nat → Nat → JingleResult
  | 0, polls, elapsed => ⟨none, polls, elapsed⟩
  | fuel + 1, polls, elapsed =>
    let elapsed2 := elapsed + 2
    match env.music.poll polls with
    | .error _ => ⟨none, polls + 1, elapsed2⟩
    | .ok r =>
      if r.status = some "Success" then
        match r.downloadUrl with
        | none => ⟨none, polls + 1, elapsed2⟩
        | some u =>
          match env.music.download u with
          | .error _ => ⟨none, polls + 1, elapsed2⟩
          | .ok _ => ⟨some ("output/" ++ job_id ++ "/jingle.mp3"), polls + 1, elapsed2⟩
      else if r.status = some "Failed" then ⟨none, polls + 1, elapsed2⟩
      else pollLoop env job_id fuel (polls + 1) elapsed2

/-- `generate_jingle`: absent without both MiniMax credentials, absent on a
submission error or a response without `task_id`, else the bounded poll
loop. -/
def generate_jingle (env : Env) (_topic job_id : String) : JingleResult :=
  if !(env.minimaxKey && env.minimaxGroupId) then ⟨none, 0, 0⟩
  else
    match env.music.submit with
    | .error _ => ⟨none, 0, 0⟩
    | .ok none => ⟨none, 0, 0⟩
    | .ok (some _task_id) => pollLoop env job_id 30 0 0

/-! ### Phase 5 — audio assembly (`stitch_podcast`) -/

/-- `pydub` expression tree.  `append` is `+` on two segments
(concatenation); `overlay` is the mixing operation (unused by the source,
present for comparison with the specified chime); `take` is slicing
(`seg[:ms]`). -/
inductive Audio where
  | silent (ms : Nat) : Audio
  | sine (freq : Nat) (ms : Nat) : Audio
  | file (path : String) (ms : Nat) : Audio
  | append (a b : Audio) : Audio
  | overlay (a b : Audio) : Audio
  | gain (db : Int) (a : Audio) : Audio
  | fadeIn (ms : Nat) (a : Audio) : Audio
  | fadeOut (ms : Nat) (a : Audio) : Audio
  | take (ms : Nat) (a : Audio) : Audio
  | normalize (a : Audio) : Audio
deriving DecidableEq

/-- Length in milliseconds of a `pydub` expression. -/
def Audio.duration : Audio → Nat
  | .silent ms => ms
  | .sine _ ms => ms
  | .file _ ms => ms
  | .append a b => a.duration + b.duration
  | .overlay a b => max a.duration b.duration
  | .gain _ a => a.duration
  | .fadeIn _ a => a.duration
  | .fadeOut _ a => a.duration
  | .take ms a => min ms a.duration
  | .normalize a => a.duration

/-- The synthetic chime the source builds: three gained sine segments
combined with `+` — which in `pydub` is concatenation, not mixing — then a
600 ms fade-out over the end of the result. -/
def synth_bell : Audio :=
  .fadeOut 600
    (.append
      (.append (.gain (-6) (.sine 659 800)) (.gain (-12) (.sine (659 * 2) 800)))
      (.gain (-15) (.sine (659 * 3) 800)))

/-- The chime as the specification words it (superposition of the three
tones, mixed into one 800 ms tone, faded out); for comparison with
`synth_bell` only. -/
def spec_mixed_bell : Audio :=
  .fadeOut 600
    (.overlay
      (.overlay (.gain (-6) (.sine 659 800)) (.gain (-12) (.sine (659 * 2) 800)))
      (.gain (-15) (.sine (659 * 3) 800)))

/-- `create_bell_chime`: load `static/bell.mp3` when it exists, exceeds the
100-byte sanity threshold and decodes; otherwise the synthetic bell. -/
def create_bell_chime (fs : FsEnv) : Audio :=
  if fs.bellFileExists ∧ fs.bellFileSize > 100 then
    match fs.bellDecode with
    | some d => .file "static/bell.mp3" d
    | none => synth_bell
  else synth_bell

/-- The job-scoped master path. -/
def finalPath (job_id : String) : String := "output/" ++ job_id ++ "/podcast.mp3"

/-- `stitch_podcast`.  Empty clip list: a 1000 ms silent master, nothing
else.  Otherwise: conversation track from the name-sorted clips, each
followed by a 400 ms gap; intro/outro from jingle (when present on disk) and
chime; normalization last. -/
def stitch_podcast (env : Env) (clip_paths : List String) (jingle_path : Option String)
    (job_id : String) : String × Audio :=
  if clip_paths = [] then
    (finalPath job_id, .silent 1000)
  else
    let conv := (sortedBy strLe clip_paths).foldl
      (fun acc p => .append acc (.append (.file p (env.fs.mp3Duration p)) (.silent 400)))
      (.silent 0)
    let bell := create_bell_chime env.fs
    let sections : Audio × Audio :=
      match jingle_path with
      | some jp =>
        if env.fs.pathExists jp then
          let jingle := Audio.file jp (env.fs.mp3Duration jp)
          let intro_jingle := Audio.fadeOut 2000 (.take 12000 (.fadeIn 2000 jingle))
          let outro_jingle := Audio.fadeOut 3000 (.take 8000 (.fadeIn 1000 jingle))
          (.append (.append (.append intro_jingle (.silent 300)) bell) (.silent 800),
           .append (.append (.append (.silent 500) bell) (.silent 300)) outro_jingle)
        else
          (.append bell (.silent 1000), .append (.silent 800) bell)
      | none =>
        (.append bell (.silent 1000), .append (.silent 800) bell)
    (finalPath job_id, .normalize (.append (.append sections.1 conv) sections.2))

/-! ### The `/generate` endpoint -/

/-- How `/generate` can abort: the 400 for a missing topic/url, or an
uncaught in-stage exception surfacing as a 500. -/
inductive AbortErr where
  | badRequest (detail : String) : AbortErr
  | uncaught (e : PyErr) : AbortErr
deriving DecidableEq

/-- The JSON payload returned on success. -/
structure Payload where
  job_id : String
  topic : String
  tone : String
  script : List Json
  research_brief : String
  audio_url : Option String
  has_audio : Bool
  clip_count : Nat

/-- The research step of the endpoint: url takes precedence; a missing topic
is replaced by `"Article from <url>"`.  Returns (brief, resolved topic). -/
def resolveResearch (env : Env) (topic url : String) : String × String :=
  if url ≠ "" then
    (research_url env url, if topic = "" then "Article from " ++ url else topic)
  else
    (research_topic env topic, topic)

/-- `generate_podcast` (`POST /generate`) on string fields `topic`, `url`,
`tone`.  The master file is written by `stitch_podcast` before the response
is built, so `final_path.exists()` holds and `audio_url` is always set. -/
def generate_podcast (env : Env) (topic₀ url₀ tone₀ : String) : Except AbortErr Payload :=
  let topic := pyStripStr topic₀
  let url := pyStripStr url₀
  let tone := pyStripStr tone₀
  if topic = "" ∧ url = "" then
    .error (.badRequest "Provide a \x27topic\x27 or \x27url\x27.")
  else
    let job_id := env.jobId
    let rb := resolveResearch env topic url
    let research_brief := rb.1
    let topic := rb.2
    let script := generate_script env topic research_brief tone
    match generate_voice_clips env script job_id with
    | .error e => .error (.uncaught e)
    | .ok clip_paths =>
      let jingle := generate_jingle env topic job_id
      let _final := stitch_podcast env clip_paths jingle.path job_id
      .ok
        { job_id := job_id
          topic := topic
          tone := tone
          script := script
          research_brief :=
            if research_brief.data.length > 500 then (⟨research_brief.data.take 500⟩ : String) ++ "..."
            else research_brief
          audio_url := some ("/output/" ++ job_id ++ "/podcast.mp3")
          has_audio := decide (clip_paths ≠ [])
          clip_count := clip_paths.length }

/-! ### Concrete environments and scripts used to instantiate the theorems -/

/-- Environment with no API keys configured and every collaborator failing:
the fully degraded deployment. -/
def envNoServices : Env :=
  { minimaxKey := false
    minimaxGroupId := false
    elevenKey := false
    wiki := ⟨.error (), fun _ => .error ()⟩
    scrape := ⟨fun _ => .error ()⟩
    chat := .error ()
    tts := fun _ _ => false
    music := ⟨.error (), fun _ => .error (), fun _ => .error ()⟩
    fs := ⟨false, 0, none, fun _ => 0, fun _ => false⟩
    jobId := "job0" }

/-- A well-formed dialogue line spoken by Alex. -/
def lineAlex : Json := .obj [("speaker", .str "Alex"), ("text", .str "hi")]

/-- A 1001-line script (all lines well formed). -/
def script1001 : List Json := List.replicate 1001 lineAlex

/-- ElevenLabs configured and every synthesis request succeeding. -/
def envTTSAll : Env := { envNoServices with elevenKey := true, tts := fun _ _ => true }

/-- Five well-formed lines, alternating speakers. -/
def script5 : List Json :=
  [ .obj [("speaker", .str "Alex"), ("text", .str "l0")],
    .obj [("speaker", .str "Sam"), ("text", .str "l1")],
    .obj [("speaker", .str "Alex"), ("text", .str "l2")],
    .obj [("speaker", .str "Sam"), ("text", .str "l3")],
    .obj [("speaker", .str "Alex"), ("text", .str "l4")] ]

/-- ElevenLabs configured; the third request (index 2) fails, all others
succeed. -/
def env5 : Env :=
  { envNoServices with elevenKey := true, tts := fun i _ => decide (i ≠ 2) }

/-- MiniMax and ElevenLabs configured; the chat service answers with a JSON
array whose only element is an empty object. -/
def envBadLine : Env :=
  { envNoServices with
    minimaxKey := true, elevenKey := true, chat := .ok "[\x7b\x7d]" }

/-- MiniMax music configured; the task stays pending forever. -/
def envPend : Env :=
  { envNoServices with
    minimaxKey := true, minimaxGroupId := true
    music := ⟨.ok (some "task1"), fun _ => .ok ⟨some "pending", none⟩, fun _ => .ok ()⟩ }

/-- MiniMax music configured; the first poll reports success with a
download url and the download succeeds. -/
def envSucc : Env :=
  { envNoServices with
    minimaxKey := true, minimaxGroupId := true
    music := ⟨.ok (some "task1"), fun _ => .ok ⟨some "Success", some "http://dl"⟩, fun _ => .ok ()⟩ }

/-- MiniMax key configured but the chat service unreachable. -/
def envChatDown : Env := { envNoServices with minimaxKey := true }

/-- Every written mp3 decodes to one second of audio. -/
def envDur1000 : Env :=
  { envNoServices with fs := ⟨false, 0, none, fun _ => 1000, fun _ => false⟩ }

/-- Wikipedia reachable but with no matching article; page fetches return an
empty text. -/
def envWikiEmpty : Env :=
  { envNoServices with
    wiki := ⟨.ok [], fun _ => .error ()⟩, scrape := ⟨fun _ => .ok ""⟩ }

/-! ### Lemmas: string order and stable sort -/

theorem strLeChars_cons (a b : Char) (as bs : List Char) :
    strLeChars (a :: as) (b :: bs) =
      if a.toNat < b.toNat then true
      else if b.toNat < a.toNat then false
      else strLeChars as bs := rfl

theorem strLeChars_total : ∀ a b : List Char, strLeChars a b = true ∨ strLeChars b a = true
  | [], _ => Or.inl rfl
  | _ :: _, [] => Or.inr rfl
  | a :: as, b :: bs => by
    by_cases h1 : a.toNat < b.toNat
    · left; simp [strLeChars_cons, h1]
    · by_cases h2 : b.toNat < a.toNat
      · right; simp [strLeChars_cons, h1, h2]
      · have ih := strLeChars_total as bs
        simpa [strLeChars_cons, h1, h2] using ih

theorem strLeChars_append_left : ∀ (p a b : List Char),
    strLeChars (p ++ a) (p ++ b) = strLeChars a b
  | [], _, _ => rfl
  | c :: p, a, b => by
    simpa [strLeChars_cons] using strLeChars_append_left p a b

theorem insertSorted_perm (le : α → α → Bool) (x : α) :
    ∀ l : List α, (insertSorted le x l).Perm (x :: l)
  | [] => .refl _
  | y :: ys => by
    by_cases h : le x y
    · simp [insertSorted, h]
    · rw [insertSorted, if_neg h]
      exact ((insertSorted_perm le x ys).cons y).trans (List.Perm.swap x y ys)

theorem sortedBy_perm (le : α → α → Bool) : ∀ l : List α, (sortedBy le l).Perm l
  | [] => .refl _
  | x :: xs =>
    (insertSorted_perm le x (sortedBy le xs)).trans ((sortedBy_perm le xs).cons x)

theorem sortedBy_eq_self {le : α → α → Bool} :
    ∀ {l : List α}, l.Chain' (fun a b => le a b = true) → sortedBy le l = l
  | [], _ => rfl
  | [x], _ => rfl
  | x :: y :: ys, h => by
    rw [List.chain'_cons] at h
    have ih := sortedBy_eq_self (l := y :: ys) h.2
    rw [sortedBy, ih, insertSorted, if_pos h.1]

theorem chain'_insertSorted {le : α → α → Bool}
    (htot : ∀ a b : α, le a b = true ∨ le b a = true) (x : α) :
    ∀ l : List α, l.Chain' (fun a b => le a b = true) →
      (insertSorted le x l).Chain' (fun a b => le a b = true)
  | [], _ => by simp [insertSorted]
  | y :: ys, h => by
    by_cases hxy : le x y = true
    · rw [insertSorted, if_pos hxy]
      exact List.chain'_cons.mpr ⟨hxy, h⟩
    · rw [insertSorted, if_neg hxy]
      have hyx : le y x = true := (htot x y).resolve_left hxy
      have ih := chain'_insertSorted htot x ys h.tail
      cases ys with
      | nil => simpa [insertSorted] using List.chain'_pair.mpr hyx
      | cons z zs =>
        have hyz : le y z = true := (List.chain'_cons.mp h).1
        by_cases hxz : le x z = true
        · rw [insertSorted, if_pos hxz] at ih ⊢
          exact List.chain'_cons.mpr ⟨hyx, ih⟩
        · rw [insertSorted, if_neg hxz] at ih ⊢
          exact List.chain'_cons.mpr ⟨hyz, ih⟩

theorem chain'_sortedBy {le : α → α → Bool}
    (htot : ∀ a b : α, le a b = true ∨ le b a = true) :
    ∀ l : List α, (sortedBy le l).Chain' (fun a b => le a b = true)
  | [] => List.chain'_nil
  | x :: xs => chain'_insertSorted htot x _ (chain'_sortedBy htot xs)

theorem sortedBy_chain_consec {α : Type} {le : α → α → Bool}
    (htot : ∀ a b : α, le a b = true ∨ le b a = true) {l : List α}
    (heq : sortedBy le l = l) (i : Nat) (h : i + 1 < l.length) :
    le (l.get ⟨i, by omega⟩) (l.get ⟨i + 1, h⟩) = true := by
  have hchain := chain'_sortedBy htot l
  rw [heq] at hchain
  exact List.chain'_iff_get.mp hchain i (by omega)

/-! ### Lemmas: clip names are ordered by sequence index below 1000 -/

theorem digitChar_toNat {d : Nat} (h : d < 10) : (Nat.digitChar d).toNat = 48 + d := by
  interval_cases d <;> rfl

theorem pad3_data {n : Nat} (h : n < 1000) :
    (pad3 n).data =
      [Nat.digitChar (n / 100), Nat.digitChar (n / 10 % 10), Nat.digitChar (n % 10)] := by
  simp [pad3, h]

theorem strLeChars_pad3 {i j : Nat} (hij : i < j) (hj : j < 1000) (r₁ r₂ : List Char) :
    strLeChars ((pad3 i).data ++ r₁) ((pad3 j).data ++ r₂) = true := by
  have hi : i < 1000 := Nat.lt_trans hij hj
  rw [pad3_data hi, pad3_data hj]
  have h2 : i / 100 < 10 := by omega
  have h3 : j / 100 < 10 := by omega
  have h4 : i / 10 % 10 < 10 := by omega
  have h5 : j / 10 % 10 < 10 := by omega
  have h6 : i % 10 < 10 := by omega
  have h7 : j % 10 < 10 := by omega
  rcases (by omega :
      i / 100 < j / 100 ∨
        (i / 100 = j / 100 ∧
          (i / 10 % 10 < j / 10 % 10 ∨
            (i / 10 % 10 = j / 10 % 10 ∧ i % 10 < j % 10)))) with h | ⟨e1, h | ⟨e2, h⟩⟩
  · have hlt : (Nat.digitChar (i / 100)).toNat < (Nat.digitChar (j / 100)).toNat := by
      rw [digitChar_toNat h2, digitChar_toNat h3]; omega
    simp [strLeChars_cons, hlt]
  · have heq : Nat.digitChar (i / 100) = Nat.digitChar (j / 100) := by rw [e1]
    have hlt : (Nat.digitChar (i / 10 % 10)).toNat < (Nat.digitChar (j / 10 % 10)).toNat := by
      rw [digitChar_toNat h4, digitChar_toNat h5]; omega
    simp [strLeChars_cons, heq, hlt]
  · have heq1 : Nat.digitChar (i / 100) = Nat.digitChar (j / 100) := by rw [e1]
    have heq2 : Nat.digitChar (i / 10 % 10) = Nat.digitChar (j / 10 % 10) := by rw [e2]
    have hlt : (Nat.digitChar (i % 10)).toNat < (Nat.digitChar (j % 10)).toNat := by
      rw [digitChar_toNat h6, digitChar_toNat h7]; omega
    simp [strLeChars_cons, heq1, heq2, hlt]

theorem strLe_clipPath (job s t : String) {i j : Nat} (hij : i < j) (hj : j < 1000) :
    strLe (clipPath job i s) (clipPath job j t) = true := by
  unfold strLe clipPath clipName
  simp only [String.data_append, List.append_assoc]
  rw [strLeChars_append_left]
  exact strLeChars_pad3 hij hj _ _

/-! ### Lemmas: durations of assembled tracks -/

theorem duration_foldl (dur : String → Nat) :
    ∀ (l : List String) (init : Audio),
    (l.foldl (fun acc p => .append acc (.append (.file p (dur p)) (.silent 400))) init).duration
      = init.duration + (l.map (fun p => dur p + 400)).sum
  | [], init => by simp
  | p :: ps, init => by
    simp only [List.foldl_cons, List.map_cons, List.sum_cons]
    rw [duration_foldl dur ps]
    simp [Audio.duration]
    omega

/-! ### Lemmas: the voice loop under well-formed scripts -/

theorem keyOk_ok {l : Json} {k : String} (h : keyOk l k = true) : ∃ v, getItem l k = .ok v := by
  unfold keyOk at h
  cases hg : getItem l k with
  | ok v => exact ⟨v, rfl⟩
  | error e => rw [hg] at h; simp at h

theorem voiceClipsGo_eq (env : Env) (job : String) :
    ∀ (i : Nat) (script : List Json), wfScript script = true →
      voiceClipsGo env job i script = .ok ((List.enumFrom i script).filterMap (clipFor env job))
  | _, [], _ => rfl
  | i, line :: rest, hwf => by
    simp only [wfScript, List.all_cons, Bool.and_eq_true] at hwf
    obtain ⟨⟨hs, ht⟩, hrest⟩ := hwf
    obtain ⟨sv, hsv⟩ := keyOk_ok hs
    obtain ⟨tv, htv⟩ := keyOk_ok ht
    have ih := voiceClipsGo_eq env job (i + 1) rest hrest
    rw [List.enumFrom_cons, List.filterMap_cons, voiceClipsGo, hsv, htv, ih]
    cases sv with
    | null => simp [clipFor, hsv]
    | bool b => simp [clipFor, hsv]
    | num v => simp [clipFor, hsv]
    | arr xs => simp [clipFor, hsv]
    | obj kvs => simp [clipFor, hsv]
    | str s =>
      by_cases htts : env.tts i (selectVoice (.str s)) = true
      · simp [clipFor, hsv, htts]
      · simp [clipFor, hsv, htts]

/-! ### Lemmas: the polling loop -/

theorem pollLoop_spec (env : Env) (job : String) :
    ∀ (fuel polls elapsed : Nat),
      (pollLoop env job fuel polls elapsed).polls ≤ polls + fuel ∧
      polls ≤ (pollLoop env job fuel polls elapsed).polls ∧
      (pollLoop env job fuel polls elapsed).elapsed =
        elapsed + 2 * ((pollLoop env job fuel polls elapsed).polls - polls)
  | 0, polls, elapsed => by simp [pollLoop]
  | fuel + 1, polls, elapsed => by
    rw [pollLoop]
    cases hp : env.music.poll polls with
    | error e => dsimp only; omega
    | ok r =>
      dsimp only
      by_cases hS : r.status = some "Success"
      · rw [if_pos hS]
        cases hd : r.downloadUrl with
        | none => dsimp only; omega
        | some u =>
          dsimp only
          cases hdl : env.music.download u with
          | error e => dsimp only; omega
          | ok x => dsimp only; omega
      · rw [if_neg hS]
        by_cases hF : r.status = some "Failed"
        · rw [if_pos hF]; dsimp only; omega
        · rw [if_neg hF]
          obtain ⟨h1, h2, h3⟩ := pollLoop_spec env job fuel (polls + 1) (elapsed + 2)
          refine ⟨by omega, by omega, by omega⟩

theorem pollLoop_pending (env : Env) (job : String)
    (hp : ∀ i, ∃ resp, env.music.poll i = .ok resp ∧ resp.status = some "pending") :
    ∀ (fuel polls elapsed : Nat),
      pollLoop env job fuel polls elapsed = ⟨none, polls + fuel, elapsed + 2 * fuel⟩
  | 0, polls, elapsed => by simp [pollLoop]
  | fuel + 1, polls, elapsed => by
    obtain ⟨resp, hresp, hstat⟩ := hp polls
    rw [pollLoop, hresp]
    dsimp only
    rw [if_neg (by rw [hstat]; decide), if_neg (by rw [hstat]; decide)]
    rw [pollLoop_pending env job hp fuel (polls + 1) (elapsed + 2)]
    have h1 : polls + 1 + fuel = polls + (fuel + 1) := by omega
    have h2 : elapsed + 2 + 2 * fuel = elapsed + 2 * (fuel + 1) := by omega
    rw [h1, h2]

/-! ### Lemmas: non-empty briefs and clip-name chains -/

theorem append_ne_empty_left (a b : String) (ha : a ≠ "") : a ++ b ≠ "" := by
  intro h
  apply ha
  have hd : a.data ++ b.data = ([] : List Char) := by
    have := congrArg String.data h
    rwa [String.data_append] at this
  have h0 : a.data = [] := (List.append_eq_nil.mp hd).1
  cases a with
  | mk l => cases h0; rfl

theorem clipFor_mem {env : Env} {job : String} {p : Nat × Json} {x : String}
    (h : clipFor env job p = some x) : ∃ s, x = clipPath job p.1 s := by
  unfold clipFor at h
  split at h
  · rename_i s heq
    split at h
    · exact ⟨s, (Option.some.inj h).symm⟩
    · exact absurd h (by simp)
  · exact absurd h (by simp)

theorem pairwise_fst_lt_enumFrom {α : Type} : ∀ (n : Nat) (l : List α),
    (List.enumFrom n l).Pairwise (fun a b => a.1 < b.1)
  | _, [] => List.Pairwise.nil
  | n, x :: xs => by
    rw [List.enumFrom_cons]
    refine List.Pairwise.cons ?_ (pairwise_fst_lt_enumFrom (n + 1) xs)
    intro b hb
    rcases b with ⟨i, y⟩
    have hge := (List.mem_enumFrom hb).1
    show n < i
    omega

theorem chain'_clips (env : Env) (job : String) {n : Nat} {l : List Json}
    (hb : n + l.length ≤ 1000) :
    ((List.enumFrom n l).filterMap (clipFor env job)).Chain' (fun a b => strLe a b = true) := by
  apply List.Pairwise.chain'
  rw [List.pairwise_filterMap]
  refine List.Pairwise.imp_of_mem ?_ (pairwise_fst_lt_enumFrom n l)
  intro p q hp hq hlt x hx y hy
  rw [Option.mem_def] at hx hy
  obtain ⟨s, rfl⟩ := clipFor_mem hx
  obtain ⟨t, rfl⟩ := clipFor_mem hy
  rcases q with ⟨qi, qv⟩
  have hqb := (List.mem_enumFrom hq).2.1
  exact strLe_clipPath job s t hlt (by omega)

theorem chain'_paths_of_idx (job : String) :
    ∀ (cs : List (Nat × String)), cs.Chain' (fun a b => a.1 < b.1) →
      (∀ c ∈ cs, c.1 < 1000) →
      (cs.map (fun c => clipPath job c.1 c.2)).Chain' (fun a b => strLe a b = true)
  | [], _, _ => List.chain'_nil
  | [_], _, _ => List.chain'_singleton _
  | a :: b :: cs, h, hlt => by
    rw [List.chain'_cons] at h
    rw [List.map_cons, List.map_cons, List.chain'_cons]
    refine ⟨strLe_clipPath job a.2 b.2 h.1 (hlt b (by simp)), ?_⟩
    have ih := chain'_paths_of_idx job (b :: cs) h.2
      (fun c hc => hlt c (List.mem_cons_of_mem a hc))
    simpa using ih

theorem filterMap_clips_replicate (env : Env) (job : String)
    (henv : ∀ i v, env.tts i v = true) :
    ∀ (n m : Nat),
      (List.enumFrom n (List.replicate m lineAlex)).filterMap (clipFor env job)
        = (List.range' n m).map (fun k => clipPath job k "Alex")
  | _, 0 => rfl
  | n, m + 1 => by
    rw [List.replicate_succ, List.enumFrom_cons, List.filterMap_cons, List.range'_succ,
      List.map_cons, filterMap_clips_replicate env job henv (n + 1) m]
    have hc : clipFor env job (n, lineAlex) = some (clipPath job n "Alex") := by
      have hg : getItem lineAlex "speaker" = .ok (.str "Alex") := rfl
      unfold clipFor
      rw [show (n, lineAlex).2 = lineAlex from rfl, hg]
      simp [henv]
    rw [hc]

/-! ### Claim theorems -/

/-- C1: for every job the master is produced at the job-scoped path
`output/<job>/podcast.mp3` whatever the clip list and jingle are, and with an
empty clip list `stitch_podcast` emits exactly a 1000 ms silent placeholder as
the master: the returned audio is literally `Audio.silent 1000` — no chime, no
jingle framing and no normalization appear in it — and its duration is
exactly 1000 ms. -/
theorem c1_empty_clips_silent_master (env : Env) (jingle_path : Option String)
    (job_id : String) :
    stitch_podcast env [] jingle_path job_id
      = ("output/" ++ job_id ++ "/podcast.mp3", Audio.silent 1000) ∧
    (Audio.silent 1000).duration = 1000 ∧
    ∀ clip_paths : List String,
      (stitch_podcast env clip_paths jingle_path job_id).1
        = "output/" ++ job_id ++ "/podcast.mp3" := by
  refine ⟨by rw [stitch_podcast, if_pos rfl]; rfl, rfl, ?_⟩
  intro clip_paths
  by_cases h : clip_paths = []
  · rw [stitch_podcast, if_pos h]
    rfl
  · rw [stitch_podcast, if_neg h]
    rfl

/-- C4: on every fallback path (file absent, below the 100-byte threshold, or
undecodable) the synthetic chime is built; but the three gained sine tones are
combined with `pydub`’s `+`, which concatenates segments, so the result is a
2400 ms sequence of three 800 ms tones with the fade over the final 600 ms of
the last tone — not the 800 ms superposition the claim describes
(`spec_mixed_bell`). -/
theorem c4_chime_is_concatenation_not_mix :
    create_bell_chime ⟨false, 5000, some 1234, fun _ => 0, fun _ => false⟩ = synth_bell ∧
    create_bell_chime ⟨true, 50, some 1234, fun _ => 0, fun _ => false⟩ = synth_bell ∧
    create_bell_chime ⟨true, 5000, none, fun _ => 0, fun _ => false⟩ = synth_bell ∧
    synth_bell
      = .fadeOut 600
          (.append
            (.append (.gain (-6) (.sine 659 800)) (.gain (-12) (.sine 1318 800)))
            (.gain (-15) (.sine 1977 800))) ∧
    synth_bell.duration = 2400 ∧
    spec_mixed_bell.duration = 800 ∧
    synth_bell.duration ≠ spec_mixed_bell.duration := by
  refine ⟨by decide, by decide, by decide, by decide, rfl, rfl, by decide⟩

/-- C8: `_parse_script_json` strips a markdown fence and parses directly;
on failure it recovers the first bracketed substring; when both fail it
raises.  Concretely: the fenced one-element array yields that element,
leading prose followed by a bracketed array recovers the array, pure garbage
raises, and a bracketed substring that is not valid JSON also raises. -/
theorem c8_parse_script_json_cases :
    _parse_script_json "```json\n[\x7b\"speaker\":\"A\",\"text\":\"x\"\x7d]\n```"
      = .ok [.obj [("speaker", .str "A"), ("text", .str "x")]] ∧
    _parse_script_json "Here is the script you asked for:\n[\x7b\"speaker\":\"Alex\",\"text\":\"hi\"\x7d]"
      = .ok [.obj [("speaker", .str "Alex"), ("text", .str "hi")]] ∧
    _parse_script_json "this response contains no json at all" = .error () ∧
    _parse_script_json "sadly [this is not an array] either" = .error () :=
  ⟨rfl, rfl, rfl, rfl⟩

/-- C7: every error path of `generate_script` — missing credentials, a chat
transport error, or an unparsable response — returns exactly the fixed
placeholder script, which has precisely ten lines and references the topic
(its first line interpolates the topic verbatim). -/
theorem c7_script_errors_fall_back_to_placeholder (env : Env)
    (topic research_brief tone : String) :
    (env.minimaxKey = false →
      generate_script env topic research_brief tone = _placeholder_script topic) ∧
    (env.chat = .error () →
      generate_script env topic research_brief tone = _placeholder_script topic) ∧
    (∀ content : String, env.chat = .ok content → _parse_script_json content = .error () →
      generate_script env topic research_brief tone = _placeholder_script topic) ∧
    (_placeholder_script topic).length = 10 ∧
    (_placeholder_script topic).head?
      = some (.obj [("speaker", .str "Alex"),
          ("text", .str ("Hey Sam, today we\x27re diving into " ++ topic ++
            ". I\x27ve been really curious about this!"))]) := by
  refine ⟨?_, ?_, ?_, rfl, rfl⟩
  · intro h; simp [generate_script, h]
  · intro h
    by_cases hk : env.minimaxKey <;> simp [generate_script, hk, h]
  · intro content hc hp
    by_cases hk : env.minimaxKey <;> simp [generate_script, hk, hc, hp]

/-- C7 witness: with the MiniMax key set but the chat service unreachable,
the script for topic "black holes" is the placeholder, which has 10 lines. -/
theorem c7_witness :
    generate_script envChatDown "black holes" "brief" "casual"
      = _placeholder_script "black holes" ∧
    (_placeholder_script "black holes").length = 10 := by
  have h := c7_script_errors_fall_back_to_placeholder envChatDown "black holes" "brief" "casual"
  exact ⟨h.2.1 rfl, h.2.2.2.1⟩

/-- C10: a dialogue line whose speaker is any string other than exactly
"Alex" is synthesized with the Sam voice id, and the line is not rejected or
skipped for its unknown label: with credentials configured and the request
succeeding, its clip is produced under the speaker’s name. -/
theorem c10_unknown_speaker_gets_sam_voice (s : String) (hs : s ≠ "Alex") :
    selectVoice (.str s) = voiceSam ∧
    ∀ (env : Env) (t job_id : String), env.elevenKey = true →
      env.tts 0 voiceSam = true →
      generate_voice_clips env [.obj [("speaker", .str s), ("text", .str t)]] job_id
        = .ok [clipPath job_id 0 s] := by
  have hv : selectVoice (.str s) = voiceSam := by simp [selectVoice, hs]
  refine ⟨hv, ?_⟩
  intro env t job_id hk htts
  have hsp : getItem (.obj [("speaker", .str s), ("text", .str t)]) "speaker"
      = .ok (.str s) := rfl
  have htx : getItem (.obj [("speaker", .str s), ("text", .str t)]) "text"
      = .ok (.str t) := rfl
  rw [generate_voice_clips, hk]
  simp only [Bool.not_true, Bool.false_eq_true, if_false]
  rw [voiceClipsGo, hsp, htx]
  simp [hv, htts, voiceClipsGo]

/-- C10 witness: the speaker label "Narrator" is outside both roles, selects
the Sam voice, and its line is synthesized normally. -/
theorem c10_witness :
    ("Narrator" : String) ≠ "Alex" ∧
    selectVoice (.str "Narrator") = voiceSam ∧
    generate_voice_clips envTTSAll [.obj [("speaker", .str "Narrator"), ("text", .str "hi")]]
        "job0" = .ok ["output/job0/clips/000_narrator.mp3"] := by
  have h := c10_unknown_speaker_gets_sam_voice "Narrator" (by decide)
  refine ⟨by decide, h.1, ?_⟩
  exact (h.2 envTTSAll "hi" "job0" rfl rfl).trans (by rfl)

/-- C9: the research stage never raises and always yields a non-empty brief:
a topic with no matching article yields the brief with the literal topic and
the "No Wikipedia article found" marker; a url whose page text strips to no
non-empty lines yields the "Page content was empty" marker brief; transport
failures yield the deterministic "lookup failed" / "Scraping failed"
placeholders; and both research functions return a non-empty string for every
oracle behavior. -/
theorem c9_research_degrades_never_raises (env : Env) (topic url : String) :
    (env.wiki.search = .ok [] →
      research_topic env topic
        = "Topic: " ++ topic ++ ". (No Wikipedia article found — generate from general knowledge.)" ∧
      topic.data <:+: (research_topic env topic).data ∧
      "No Wikipedia article found".data <:+: (research_topic env topic).data) ∧
    (env.wiki.search = .error () →
      research_topic env topic
        = "Topic: " ++ topic ++ ". (Wikipedia lookup failed — generate from general knowledge.)") ∧
    (∀ text : String, env.scrape.fetch url = .ok text →
      ((pySplitlines text.data).map pyStrip).filter (· ≠ []) = [] →
      research_url env url
        = "Article URL: " ++ url ++ ". (Page content was empty — generate from general knowledge.)") ∧
    (env.scrape.fetch url = .error () →
      research_url env url
        = "Article URL: " ++ url ++ ". (Scraping failed — generate from general knowledge.)") ∧
    research_topic env topic ≠ "" ∧
    research_url env url ≠ "" := by
  refine ⟨?_, ?_, ?_, ?_, ?_, ?_⟩
  · intro h
    have hres : research_topic env topic
        = "Topic: " ++ topic ++ ". (No Wikipedia article found — generate from general knowledge.)" := by
      simp [research_topic, h]
    refine ⟨hres, ?_, ?_⟩
    · rw [hres]
      exact ⟨"Topic: ".data,
        ". (No Wikipedia article found — generate from general knowledge.)".data,
        by simp [String.data_append]⟩
    · rw [hres]
      have hsplit : (". (No Wikipedia article found — generate from general knowledge.)" : String)
          = ". (" ++ "No Wikipedia article found" ++ " — generate from general knowledge.)" := rfl
      rw [hsplit]
      exact ⟨("Topic: " ++ topic ++ ". (").data, " — generate from general knowledge.)".data,
        by simp [String.data_append]⟩
  · intro h
    simp [research_topic, h]
  · intro text hfetch hempty
    have hempty2 : List.filter (fun x => !decide (x = []))
        (List.map pyStrip (pySplitlines text.data)) = [] := by
      simpa using hempty
    simp [research_url, hfetch, hempty2, List.intercalate]
  · intro h
    simp [research_url, h]
  · unfold research_topic
    cases hs : env.wiki.search with
    | error e => exact append_ne_empty_left _ _ (append_ne_empty_left _ _ (by decide))
    | ok ts =>
      cases ts with
      | nil => exact append_ne_empty_left _ _ (append_ne_empty_left _ _ (by decide))
      | cons t rest =>
        dsimp only
        cases he : env.wiki.extract t with
        | error e => exact append_ne_empty_left _ _ (append_ne_empty_left _ _ (by decide))
        | ok raw =>
          dsimp only
          split
          · exact append_ne_empty_left _ _
              (append_ne_empty_left _ _ (append_ne_empty_left _ _ (by decide)))
          · exact append_ne_empty_left _ _ (append_ne_empty_left _ _ (by decide))
  · unfold research_url
    cases hf : env.scrape.fetch url with
    | error e => exact append_ne_empty_left _ _ (append_ne_empty_left _ _ (by decide))
    | ok text =>
      dsimp only
      split
      · exact append_ne_empty_left _ _
          (append_ne_empty_left _ _ (append_ne_empty_left _ _ (by decide)))
      · exact append_ne_empty_left _ _ (append_ne_empty_left _ _ (by decide))

/-- C9 witness: with a reachable Wikipedia returning no match and pages that
strip to nothing, the degraded briefs come back as stated; with everything
failing, the deterministic placeholders come back. -/
theorem c9_witness :
    research_topic envWikiEmpty "qqq"
      = "Topic: qqq. (No Wikipedia article found — generate from general knowledge.)" ∧
    research_url envWikiEmpty "http://x"
      = "Article URL: http://x. (Page content was empty — generate from general knowledge.)" ∧
    research_topic envNoServices "qqq"
      = "Topic: qqq. (Wikipedia lookup failed — generate from general knowledge.)" ∧
    research_url envNoServices "http://x"
      = "Article URL: http://x. (Scraping failed — generate from general knowledge.)" := by
  have h1 := c9_research_degrades_never_raises envWikiEmpty "qqq" "http://x"
  have h2 := c9_research_degrades_never_raises envNoServices "qqq" "http://x"
  refine ⟨((h1.1 rfl).1).trans (by rfl), ?_, (h2.2.1 rfl).trans (by rfl),
    (h2.2.2.2.1 rfl).trans (by rfl)⟩
  exact (h1.2.2.1 "" rfl rfl).trans (by rfl)

/-- C6: `generate_jingle` issues at most 30 polls and sleeps exactly 2 time
units before each poll (elapsed = 2 × polls ≤ 60); with the task forever
pending it returns absent after exactly 30 polls and 60 units of waiting; a
success status yields the downloaded jingle path; an explicit failure status,
a transport error at submission or polling, and missing credentials all yield
absent.  The stage never raises. -/
theorem c6_jingle_polls_bounded (env : Env) (topic job_id : String) :
    ((generate_jingle env topic job_id).polls ≤ 30 ∧
      (generate_jingle env topic job_id).elapsed
        = 2 * (generate_jingle env topic job_id).polls) ∧
    (∀ task_id, env.music.submit = .ok (some task_id) →
      (∀ i, ∃ resp, env.music.poll i = .ok resp ∧ resp.status = some "pending") →
      env.minimaxKey = true → env.minimaxGroupId = true →
      generate_jingle env topic job_id = ⟨none, 30, 60⟩) ∧
    (∀ task_id dl_url, env.music.submit = .ok (some task_id) →
      env.music.poll 0 = .ok ⟨some "Success", some dl_url⟩ →
      env.music.download dl_url = .ok () →
      env.minimaxKey = true → env.minimaxGroupId = true →
      generate_jingle env topic job_id
        = ⟨some ("output/" ++ job_id ++ "/jingle.mp3"), 1, 2⟩) ∧
    (∀ task_id resp, env.music.submit = .ok (some task_id) →
      env.music.poll 0 = .ok resp → resp.status = some "Failed" →
      env.minimaxKey = true → env.minimaxGroupId = true →
      generate_jingle env topic job_id = ⟨none, 1, 2⟩) ∧
    (env.music.submit = .error () → generate_jingle env topic job_id = ⟨none, 0, 0⟩) ∧
    (env.minimaxKey = false → generate_jingle env topic job_id = ⟨none, 0, 0⟩) := by
  have h30 : (30 : Nat) = 29 + 1 := rfl
  refine ⟨?_, ?_, ?_, ?_, ?_, ?_⟩
  · rw [generate_jingle]
    by_cases hk : (env.minimaxKey && env.minimaxGroupId) = true
    · rw [hk]
      simp only [Bool.not_true, Bool.false_eq_true, if_false]
      cases hs : env.music.submit with
      | error e => dsimp only; exact ⟨by omega, rfl⟩
      | ok o =>
        cases o with
        | none => dsimp only; exact ⟨by omega, rfl⟩
        | some tid =>
          dsimp only
          obtain ⟨h1, h2, h3⟩ := pollLoop_spec env job_id 30 0 0
          exact ⟨by omega, by omega⟩
    · rw [Bool.not_eq_true] at hk
      rw [hk, if_pos (show (!false) = true from rfl)]
      dsimp only
      exact ⟨by omega, rfl⟩
  · intro task_id hsub hp hk hg
    rw [generate_jingle, hk, hg, hsub]
    simpa using pollLoop_pending env job_id hp 30 0 0
  · intro task_id dl_url hsub hpoll hdl hk hg
    rw [generate_jingle, hk, hg, hsub]
    simp only [Bool.and_self, Bool.not_true, Bool.false_eq_true, if_false]
    rw [h30, pollLoop, hpoll]
    dsimp only
    rw [if_pos rfl, hdl]
  · intro task_id resp hsub hpoll hF hk hg
    rw [generate_jingle, hk, hg, hsub]
    simp only [Bool.and_self, Bool.not_true, Bool.false_eq_true, if_false]
    rw [h30, pollLoop, hpoll]
    dsimp only
    have hns : ¬ resp.status = some "Success" := by rw [hF]; simp
    rw [if_neg hns, if_pos hF]
  · intro hsub
    rw [generate_jingle]
    by_cases hk : (env.minimaxKey && env.minimaxGroupId) = true
    · rw [hk, hsub]
      simp
    · rw [Bool.not_eq_true] at hk
      rw [hk]
      simp
  · intro hk
    rw [generate_jingle, hk]
    simp

/-- C6 witness: a forever-pending task exhausts exactly 30 polls over 60 time
units; a first-poll success returns the downloaded jingle after one poll. -/
theorem c6_witness :
    generate_jingle envPend "t" "job0" = ⟨none, 30, 60⟩ ∧
    generate_jingle envSucc "t" "job0" = ⟨some "output/job0/jingle.mp3", 1, 2⟩ := by
  constructor
  · exact (c6_jingle_polls_bounded envPend "t" "job0").2.1 "task1" rfl
      (fun i => ⟨⟨some "pending", none⟩, rfl, rfl⟩) rfl rfl
  · exact ((c6_jingle_polls_bounded envSucc "t" "job0").2.2.1 "task1" "http://dl"
      rfl rfl rfl rfl rfl).trans (by rfl)

/-- C5 (amended): the voice loop walks the script strictly in order; a failed
synthesis skips only its own line; surviving clips keep their original
zero-based indices in their file names (the closed form below filters the
enumerated script, keeping each surviving line’s original index); without
credentials the result is empty; and for scripts of at most 1000 lines the
returned names are already in name order, so a later sort by name reproduces
speaking order. -/
theorem c5_voice_loop_skips_failed_lines (env : Env) (script : List Json) (job_id : String)
    (hwf : wfScript script = true) :
    (env.elevenKey = false → generate_voice_clips env script job_id = .ok []) ∧
    (env.elevenKey = true →
      generate_voice_clips env script job_id
        = .ok (script.enum.filterMap (clipFor env job_id))) ∧
    (script.length ≤ 1000 →
      sortedBy strLe (script.enum.filterMap (clipFor env job_id))
        = script.enum.filterMap (clipFor env job_id)) := by
  refine ⟨?_, ?_, ?_⟩
  · intro hk; simp [generate_voice_clips, hk]
  · intro hk
    rw [generate_voice_clips, hk]
    simp only [Bool.not_true, Bool.false_eq_true, if_false]
    rw [List.enum_eq_enumFrom]
    exact voiceClipsGo_eq env job_id 0 script hwf
  · intro hlen
    rw [List.enum_eq_enumFrom]
    exact sortedBy_eq_self (chain'_clips env job_id (by omega))

/-- C5 witness: five well-formed lines with synthesis failing exactly on
index 2 produce four clips named with the original indices 0, 1, 3, 4. -/
theorem c5_witness :
    wfScript script5 = true ∧
    generate_voice_clips env5 script5 "job0"
      = .ok ["output/job0/clips/000_alex.mp3", "output/job0/clips/001_sam.mp3",
             "output/job0/clips/003_sam.mp3", "output/job0/clips/004_alex.mp3"] := by
  refine ⟨rfl, ?_⟩
  have h := (c5_voice_loop_skips_failed_lines env5 script5 "job0" rfl).2.1 rfl
  exact h.trans (by rfl)

/-- C5 counterexample: with 1001 well-formed lines and every synthesis
succeeding, the loop produces 1001 clips, but sorting their names does not
reproduce speaking order: the name of line 1000 ("1000_…") sorts before the
name of line 999 ("999_…"), because `f"{i:03d}"` pads to only three digits. -/
theorem c5_counterexample :
    generate_voice_clips envTTSAll script1001 "j"
      = .ok (script1001.enum.filterMap (clipFor envTTSAll "j")) ∧
    sortedBy strLe (script1001.enum.filterMap (clipFor envTTSAll "j"))
      ≠ script1001.enum.filterMap (clipFor envTTSAll "j") := by
  have hwf : wfScript script1001 = true := by
    rw [wfScript, List.all_eq_true]
    intro l hl
    rw [script1001, List.mem_replicate] at hl
    rw [hl.2]
    decide
  have htot : ∀ a b : String, strLe a b = true ∨ strLe b a = true := fun a b =>
    strLeChars_total a.data b.data
  constructor
  · rw [generate_voice_clips, show envTTSAll.elevenKey = true from rfl]
    simp only [Bool.not_true, Bool.false_eq_true, if_false]
    rw [List.enum_eq_enumFrom]
    exact voiceClipsGo_eq envTTSAll "j" 0 script1001 hwf
  · rw [List.enum_eq_enumFrom, script1001,
      filterMap_clips_replicate envTTSAll "j" (fun _ _ => rfl) 0 1001]
    intro heq
    have hlen : ((List.range' 0 1001).map (fun k => clipPath "j" k "Alex")).length = 1001 := by
      simp [List.length_range']
    have h999 := sortedBy_chain_consec htot heq 999 (by rw [hlen]; omega)
    simp only [List.get_eq_getElem, List.getElem_map, List.getElem_range'] at h999
    norm_num at h999
    exact absurd h999 (by decide)

/-- C3 (amended): with clips listed in increasing sequence-index order, all
indices below 1000, and no jingle, the master is
normalize(intro ++ conversation ++ outro) with intro = chime ++ 1000 ms
silence, outro = 800 ms silence ++ chime, and the conversation the clips in
that order, each followed by a 400 ms gap (the code’s sort by file name
leaves such a list unchanged); and for every non-empty clip list, in any
order, the master duration is chime + 1000 + Σ(clipᵢ + 400) + 800 + chime. -/
theorem c3_no_jingle_assembly (env : Env) (cs : List (Nat × String)) (job_id : String)
    (hne : cs ≠ []) (hchain : cs.Chain' (fun a b => a.1 < b.1))
    (hlt : ∀ c ∈ cs, c.1 < 1000) :
    (stitch_podcast env (cs.map (fun c => clipPath job_id c.1 c.2)) none job_id).2
      = .normalize
          (.append
            (.append (.append (create_bell_chime env.fs) (.silent 1000))
              ((cs.map (fun c => clipPath job_id c.1 c.2)).foldl
                (fun acc p => .append acc (.append (.file p (env.fs.mp3Duration p)) (.silent 400)))
                (.silent 0)))
            (.append (.silent 800) (create_bell_chime env.fs))) ∧
    ∀ clip_paths : List String, clip_paths ≠ [] →
      (stitch_podcast env clip_paths none job_id).2.duration
        = (create_bell_chime env.fs).duration + 1000
            + (clip_paths.map (fun p => env.fs.mp3Duration p + 400)).sum + 800
            + (create_bell_chime env.fs).duration := by
  constructor
  · have hmapne : cs.map (fun c => clipPath job_id c.1 c.2) ≠ [] := by
      simpa using hne
    rw [stitch_podcast, if_neg hmapne]
    dsimp only
    rw [sortedBy_eq_self (chain'_paths_of_idx job_id cs hchain hlt)]
  · intro clip_paths hne2
    rw [stitch_podcast, if_neg hne2]
    dsimp only
    simp only [Audio.duration]
    rw [duration_foldl env.fs.mp3Duration]
    have hperm : ((sortedBy strLe clip_paths).map (fun p => env.fs.mp3Duration p + 400)).sum
        = (clip_paths.map (fun p => env.fs.mp3Duration p + 400)).sum :=
      ((sortedBy_perm strLe clip_paths).map _).sum_eq
    rw [hperm]
    simp only [Audio.duration]
    omega

/-- C3 witness: two one-second clips (indices 0 and 1), synthetic chime, no
jingle: the master lasts 2400 + 1000 + (1000+400)·2 + 800 + 2400 = 9400 ms. -/
theorem c3_witness :
    (stitch_podcast envDur1000
        [clipPath "job0" 0 "Alex", clipPath "job0" 1 "Sam"] none "job0").2.duration
      = 9400 := by
  have h := (c3_no_jingle_assembly envDur1000 [(0, "Alex"), (1, "Sam")] "job0"
    (by decide) (List.chain'_pair.mpr (by decide)) (by decide)).2
    [clipPath "job0" 0 "Alex", clipPath "job0" 1 "Sam"] (by decide)
  rw [h]
  rfl

/-- C3 counterexample: clips with sequence indices 999 and 1000, given in
index order, are assembled with clip 1000 *before* clip 999 (the code sorts
by file name and "1000_…" < "999_…"), so the conversation track is not the
clips sorted by sequence index. -/
theorem c3_counterexample :
    (stitch_podcast envNoServices
        [clipPath "j" 999 "Alex", clipPath "j" 1000 "Alex"] none "j").2
      ≠ .normalize
          (.append
            (.append (.append (create_bell_chime envNoServices.fs) (.silent 1000))
              ([clipPath "j" 999 "Alex", clipPath "j" 1000 "Alex"].foldl
                (fun acc p =>
                  .append acc (.append (.file p (envNoServices.fs.mp3Duration p)) (.silent 400)))
                (.silent 0)))
            (.append (.silent 800) (create_bell_chime envNoServices.fs))) := by
  decide

/-- C2 (amended): a submission with both topic and url blank is rejected with
the 400 before any stage runs; a submission with a non-empty topic or url
runs every stage and returns the payload (job id, topic, tone, script, brief
preview, audio reference, has_audio flag, clip count) **provided** either no
synthesis credentials are configured or every parsed script line is an object
with "speaker" and "text" keys — a malformed parsed line raises an uncaught
KeyError/TypeError in the voice stage (the subscripts sit outside its
`try`), aborting the job. -/
theorem c2_endpoint_behavior (env : Env) (topic url tone : String) :
    (pyStripStr topic = "" → pyStripStr url = "" →
      generate_podcast env topic url tone
        = .error (.badRequest "Provide a \x27topic\x27 or \x27url\x27.")) ∧
    (¬(pyStripStr topic = "" ∧ pyStripStr url = "") →
      (env.elevenKey = false ∨
        wfScript (generate_script env
          (resolveResearch env (pyStripStr topic) (pyStripStr url)).2
          (resolveResearch env (pyStripStr topic) (pyStripStr url)).1
          (pyStripStr tone)) = true) →
      (generate_podcast env topic url tone).isOk = true ∧
      ∀ p : Payload, generate_podcast env topic url tone = .ok p →
        p.job_id = env.jobId ∧
        p.audio_url = some ("/output/" ++ env.jobId ++ "/podcast.mp3") ∧
        p.script = generate_script env
          (resolveResearch env (pyStripStr topic) (pyStripStr url)).2
          (resolveResearch env (pyStripStr topic) (pyStripStr url)).1
          (pyStripStr tone) ∧
        p.has_audio = decide (p.clip_count ≠ 0)) := by
  constructor
  · intro h1 h2
    simp only [generate_podcast]
    rw [if_pos ⟨h1, h2⟩]
  · intro hne hdeg
    obtain ⟨C, hv⟩ : ∃ C,
        generate_voice_clips env
          (generate_script env
            (resolveResearch env (pyStripStr topic) (pyStripStr url)).2
            (resolveResearch env (pyStripStr topic) (pyStripStr url)).1
            (pyStripStr tone)) env.jobId = .ok C := by
      rcases hdeg with hk | hwf
      · exact ⟨[], by simp [generate_voice_clips, hk]⟩
      · by_cases hk : env.elevenKey = true
        · refine ⟨(List.enumFrom 0 (generate_script env
              (resolveResearch env (pyStripStr topic) (pyStripStr url)).2
              (resolveResearch env (pyStripStr topic) (pyStripStr url)).1
              (pyStripStr tone))).filterMap (clipFor env env.jobId), ?_⟩
          rw [generate_voice_clips, hk]
          simp only [Bool.not_true, Bool.false_eq_true, if_false]
          exact voiceClipsGo_eq env env.jobId 0 _ hwf
        · rw [Bool.not_eq_true] at hk
          exact ⟨[], by simp [generate_voice_clips, hk]⟩
    simp only [generate_podcast]
    rw [if_neg hne, hv]
    dsimp only
    refine ⟨rfl, ?_⟩
    intro p hp
    injection hp with h
    rw [← h]
    refine ⟨rfl, rfl, rfl, ?_⟩
    rw [decide_eq_decide]
    simp [List.length_eq_zero]

/-- C2 witness: with nothing configured, topic "black holes" completes and
returns a payload; the blank submission is rejected with the 400. -/
theorem c2_witness :
    (generate_podcast envNoServices "black holes" "" "casual").isOk = true ∧
    generate_podcast envNoServices "" "" "casual"
      = .error (.badRequest "Provide a \x27topic\x27 or \x27url\x27.") := by
  have h := c2_endpoint_behavior envNoServices "black holes" "" "casual"
  have h0 := c2_endpoint_behavior envNoServices "" "" "casual"
  exact ⟨(h.2 (by decide) (Or.inl rfl)).1, h0.1 rfl rfl⟩

/-- C2 counterexample: topic "dinosaurs" is non-empty, yet when the LLM
answers `[{}]` (a parsable array whose line has no "speaker" key) and
synthesis credentials are configured, the voice stage raises an uncaught
KeyError and the job aborts — refuting the claim that the only job-level
failure is a blank topic and url. -/
theorem c2_counterexample :
    pyStripStr "dinosaurs" ≠ "" ∧
    generate_podcast envBadLine "dinosaurs" "" "casual"
      = .error (.uncaught (.keyError "speaker")) := by
  exact ⟨by decide, by rfl⟩

end Podcast
